import Mathlib

/-! Shallow embedding of the session middleware of this repository.

Embedded sources:
* `V1` — `src/session/src/session.ts` (`createSessionMiddleware`): cookie
  hydration, the flash API, `login`/`logout`, rotation on a handler-mutated
  session id, flash cleanup, persistence and cookie emission.
* `V2` — `src/unnamed/part_005` (first document): the later revision of the
  same middleware, which adds the `trackUserAgent` / `trackIp` client-signal
  options and replaces the clear-cookie logout with a rotate-to-fresh-session
  logout.
* `Tok` — the stateless bearer-token branch (`verifyToken` option, v0.3.5).
  Its implementation is not present under `src/`; it is modelled from the
  spec (see the doc comments in the `Tok` namespace).

Conventions: a JS `Record<string, V>` object is an association list with
unique keys (`Rec V`); the storage backend is a partial map
`String → Option (Raw S V)`; `crypto.randomUUID()` is an external supply
`uuids : Nat → String` consumed at an explicit index; `Date.now()` is an
external parameter `now : Nat`; JS `undefined` is `Option.none`; JS string
truthiness (`if (sessionId)`) treats the empty string as false. -/

namespace FreshSession

/-- JS `Record<string, V>` modelled as an association list with unique keys.
Lookup `obj[key]` is `recGet`, the `key in obj` test is `recHas`, and the
assignment `obj[key] = v` is `recSet`. -/
abbrev Rec (V : Type) := List (String × V)

/-- Lookup `obj[key]`, `none` when the key is absent. -/
def recGet {V : Type} : Rec V → String → Option V
  | [], _ => none
  | (k', v) :: r, k => if k' = k then some v else recGet r k

/-- The JS `key in obj` membership test. -/
def recHas {V : Type} (r : Rec V) (k : String) : Bool :=
  (recGet r k).isSome

/-- The JS assignment `obj[key] = value`: overwrite in place when the key is
present, append otherwise. -/
def recSet {V : Type} : Rec V → String → V → Rec V
  | [], k, v => [(k, v)]
  | (k', v') :: r, k, v =>
    if k' = k then (k, v) :: r else (k', v') :: recSet r k v

theorem recGet_recSet_self {V : Type} (r : Rec V) (k : String) (v : V) :
    recGet (recSet r k v) k = some v := by
  induction r with
  | nil => simp [recSet, recGet]
  | cons p r ih =>
    obtain ⟨k', v'⟩ := p
    by_cases h : k' = k
    · simp [recSet, recGet, h]
    · simp [recSet, recGet, h, ih]

theorem recGet_recSet_ne {V : Type} (r : Rec V) {k j : String} (v : V)
    (h : j ≠ k) : recGet (recSet r k v) j = recGet r j := by
  have hk : k ≠ j := Ne.symm h
  induction r with
  | nil => simp [recSet, recGet, hk]
  | cons p r ih =>
    obtain ⟨k', v'⟩ := p
    by_cases h1 : k' = k
    · subst h1
      simp [recSet, recGet, hk]
    · by_cases h2 : k' = j
      · subst h2
        simp [recSet, recGet, h1, hk]
      · simp [recSet, recGet, h1, h2, ih]

/-- Looking a key up after filtering out the consumed keys: `none` when the
key was consumed, the original entry otherwise. -/
theorem recGet_filter_consumed {V : Type} (r : Rec V) (c : List String)
    (j : String) :
    recGet (r.filter (fun p => !(c.contains p.1))) j =
      if j ∈ c then none else recGet r j := by
  induction r with
  | nil => by_cases hc : j ∈ c <;> simp [recGet, hc]
  | cons p r ih =>
    obtain ⟨k', v'⟩ := p
    by_cases hk : k' = j
    · subst hk
      by_cases hc : k' ∈ c
      · simpa [List.filter_cons, recGet, hc] using ih
      · simp [List.filter_cons, recGet, hc]
    · by_cases hc : k' ∈ c <;> by_cases hcj : j ∈ c <;>
        simpa [List.filter_cons, recGet, hk, hc, hcj] using ih

/-- A stored value as the middleware's hydration sees it: either the current
structured shape (an object with `data` and `flash` fields) or a legacy flat
data object (the migration path). -/
inductive Raw (S V : Type) where
  | current (s : S)
  | legacy (d : Rec V)
  deriving DecidableEq

/-- The storage backend: a partial map from session ids to stored values
(`get` is application, `set` is `storeSet`, `delete` is `storeDelete`). -/
abbrev Store (S V : Type) := String → Option (Raw S V)

/-- `store.set(id, r)`: full replacement of the value under `id`. -/
def storeSet {S V : Type} (st : Store S V) (id : String) (r : Raw S V) :
    Store S V :=
  fun x => if x = id then some r else st x

/-- `store.delete(id)`. -/
def storeDelete {S V : Type} (st : Store S V) (id : String) : Store S V :=
  fun x => if x = id then none else st x

theorem storeSet_self {S V : Type} (st : Store S V) (id : String)
    (r : Raw S V) : storeSet st id r id = some r := by
  simp [storeSet]

theorem storeSet_ne {S V : Type} (st : Store S V) {id x : String}
    (r : Raw S V) (h : x ≠ id) : storeSet st id r x = st x := by
  simp [storeSet, h]

theorem storeDelete_self {S V : Type} (st : Store S V) (id : String) :
    storeDelete st id id = none := by
  simp [storeDelete]

theorem storeDelete_ne {S V : Type} (st : Store S V) {id x : String}
    (h : x ≠ id) : storeDelete st id x = st x := by
  simp [storeDelete, h]

/-- `performFlashCleanup` (identical in `session.ts` and `part_005`): keep the
pre-request flash entries that were not consumed, then overlay the newly
staged entries. -/
def performFlashCleanup {V : Type} (oldFlash : Rec V) (consumed : List String)
    (newFlash : Rec V) : Rec V :=
  newFlash.foldl (fun acc p => recSet acc p.1 p.2)
    (oldFlash.filter (fun p => !(consumed.contains p.1)))

/-- The observable effects a downstream handler can exercise on the
session-related request state. -/
inductive Action (V : Type) where
  | flashOp (key : String) (value : Option V)
  | loginOp (userId : String) (data : Option (Rec V))
  | logoutOp
  | setSessionId (id : String)

/-- What the middleware does to the response cookie. -/
inductive CookieOut where
  | clear
  | setTo (id : String)
  deriving DecidableEq

/-- The observable outcome of one request: the store after the request, the
response cookie, the final request-scoped session data and session id, the
values returned by the handler's `flash(key)` reads (an observation log), and
the number of consumed random ids. -/
structure Result (S V : Type) where
  store : Store S V
  cookie : CookieOut
  session : Rec V
  sessionId : Option String
  reads : List (Option V)
  uuidIdx : Nat

namespace V1

/-- The `StoredSession` record of `src/session/src/session.ts`: user-space
`data`, one-shot `flash` entries, the optional `userId` system field and the
`lastSeenAt` timestamp. -/
structure StoredSession (V : Type) where
  data : Rec V
  flash : Rec V
  userId : Option String := none
  lastSeenAt : Nat
  deriving DecidableEq

/-- The request-scoped state between `ctx.next()` entry and return: the
storage backend, the middleware's local `sessionId` variable (`none` models
`undefined`, which `logout` assigns), the `initialSessionId` constant the
rotation helper closes over, `ctx.state.sessionId`, `ctx.state.session`, the
local `storedSession`, the `consumedFlash` set, the `newFlash` record, and
the next index into the random-UUID supply. -/
structure Mid (V : Type) where
  store : Store (StoredSession V) V
  sessionId : Option String
  initialSessionId : String
  ctxSessionId : String
  ctxSession : Rec V
  stored : StoredSession V
  consumedFlash : List String
  newFlash : Rec V
  uuidIdx : Nat

/-- The `ctx.state.flash` closure of `session.ts` (lines 223-235): with an
undefined `value` it is a consuming read from the pre-request flash set;
with a defined `value` it stages into `newFlash` and returns `undefined`. -/
def flashCall {V : Type} (s : Mid V) (key : String) (value : Option V) :
    Option V × Mid V :=
  match value with
  | none =>
    if recHas s.stored.flash key then
      (recGet s.stored.flash key,
       { s with consumedFlash := key :: s.consumedFlash })
    else
      (none, s)
  | some v =>
    (none, { s with newFlash := recSet s.newFlash key v })

/-- The `ctx.state.hasFlash` closure: key present in the pre-request flash
set or in the newly staged set. -/
def hasFlash {V : Type} (s : Mid V) (key : String) : Bool :=
  recHas s.stored.flash key || recHas s.newFlash key

/-- The `rotateSession` helper: delete the record under `initialSessionId`,
then assign a freshly generated random id to both the local `sessionId` and
`ctx.state.sessionId`. -/
def rotateSession {V : Type} (uuids : Nat → String) (s : Mid V) : Mid V :=
  let newId := uuids s.uuidIdx
  { s with
    store := storeDelete s.store s.initialSessionId
    sessionId := some newId
    ctxSessionId := newId
    uuidIdx := s.uuidIdx + 1 }

/-- `ctx.state.login`: rotate, set the `userId` system field, replace the
session data with the provided payload (or an empty object). -/
def login {V : Type} (uuids : Nat → String) (s : Mid V) (userId : String)
    (data : Option (Rec V)) : Mid V :=
  let s1 := rotateSession uuids s
  let d := data.getD []
  { s1 with
    stored := { s1.stored with userId := some userId, data := d }
    ctxSession := d }

/-- `ctx.state.logout` of `session.ts`: delete the record under the current
session id (`delete(sessionId!)` — a no-op on string keys when the id is
already `undefined`), then set the local `sessionId` to `undefined` (which
later routes the response to the clear-cookie path), clear
`ctx.state.session`, and reset the working record to a fresh empty one. -/
def logout {V : Type} (now : Nat) (s : Mid V) : Mid V :=
  let deleted :=
    match s.sessionId with
    | some id => storeDelete s.store id
    | none => s.store
  { s with
    store := deleted
    sessionId := none
    ctxSession := []
    stored := { data := [], flash := [], userId := none, lastSeenAt := now } }

/-- One handler-visible operation; the second component logs the value a
`flash(key)` read returned (`none` for the other operations). -/
def stepAction {V : Type} (uuids : Nat → String) (now : Nat) (s : Mid V) :
    Action V → Mid V × Option (Option V)
  | Action.flashOp k v =>
    let out := flashCall s k v
    (out.2, match v with | none => some out.1 | some _ => none)
  | Action.loginOp uid d => (login uuids s uid d, none)
  | Action.logoutOp => (logout now s, none)
  | Action.setSessionId id => ({ s with ctxSessionId := id }, none)

/-- Run the downstream handler, modelled as a list of operations; collects
the `flash(key)` read results as an observation log. -/
def runActions {V : Type} (uuids : Nat → String) (now : Nat) :
    List (Action V) → Mid V → Mid V × List (Option V)
  | [], s => (s, [])
  | a :: rest, s =>
    let st := stepAction uuids now s a
    let r := runActions uuids now rest st.1
    (r.1, st.2.toList ++ r.2)

/-- Hydration (`session.ts` lines 175-199): read the cookie (the empty
string is falsy), look up the record, adopt a current-shape record, treat a
legacy flat object as `data` only, and discard an unknown id. Returns the
surviving session id (if any) and the working record. -/
def hydrate {V : Type} (store₀ : Store (StoredSession V) V)
    (cookie : Option String) (now : Nat) :
    Option String × StoredSession V :=
  let base : StoredSession V := { data := [], flash := [], lastSeenAt := now }
  match cookie with
  | none => (none, base)
  | some sid =>
    if sid = "" then (none, base)
    else
      match store₀ sid with
      | some (Raw.current s) => (some sid, s)
      | some (Raw.legacy d) => (some sid, { base with data := d })
      | none => (none, base)

/-- One full request through the `session.ts` middleware: hydrate, assign a
fresh id when none survived, run the handler, then post-process — the
clear-cookie early return when `sessionId` is falsy (logout), the
rotation-on-mismatch check, `performFlashCleanup`, the `lastSeenAt` refresh,
the save, and the response cookie. -/
def handleRequest {V : Type} (uuids : Nat → String) (now : Nat)
    (store₀ : Store (StoredSession V) V) (cookie : Option String)
    (actions : List (Action V)) (idx₀ : Nat) : Result (StoredSession V) V :=
  let hyd := hydrate store₀ cookie now
  let assigned : String × Nat :=
    match hyd.1 with
    | some sid => (sid, idx₀)
    | none => (uuids idx₀, idx₀ + 1)
  let s₀ : Mid V :=
    { store := store₀
      sessionId := some assigned.1
      initialSessionId := assigned.1
      ctxSessionId := assigned.1
      ctxSession := hyd.2.data
      stored := hyd.2
      consumedFlash := []
      newFlash := []
      uuidIdx := assigned.2 }
  let run := runActions uuids now actions s₀
  let s₁ := run.1
  match s₁.sessionId with
  | none =>
    { store := s₁.store, cookie := CookieOut.clear, session := s₁.ctxSession,
      sessionId := none, reads := run.2, uuidIdx := s₁.uuidIdx }
  | some sid₁ =>
    if sid₁ = "" then
      { store := s₁.store, cookie := CookieOut.clear,
        session := s₁.ctxSession, sessionId := some sid₁, reads := run.2,
        uuidIdx := s₁.uuidIdx }
    else
      let rot : Mid V × String :=
        if s₁.ctxSessionId ≠ sid₁ then (rotateSession uuids s₁, uuids s₁.uuidIdx)
        else (s₁, sid₁)
      let s₂ := rot.1
      let sidF := rot.2
      let flashF := performFlashCleanup s₂.stored.flash s₂.consumedFlash s₂.newFlash
      let storedF : StoredSession V :=
        { s₂.stored with flash := flashF, lastSeenAt := now }
      { store := storeSet s₂.store sidF (Raw.current storedF)
        cookie := CookieOut.setTo sidF
        session := s₂.ctxSession
        sessionId := some sidF
        reads := run.2
        uuidIdx := s₂.uuidIdx }

end V1

/-- C10: calling the flash API with an explicitly undefined second argument
(`flash(k, undefined)`, i.e. `value = none`) is dispatched as a consuming
read, not a set: it returns the pre-request flash entry under `k` (or
`undefined`), marks the entry consumed exactly when it is present, stages
nothing into the new-flash namespace, and leaves the stored record
untouched — so `undefined` can never be stored as a flash value through
`flash(k, v)`. -/
theorem c10_flash_undefined_dispatches_get {V : Type} (s : V1.Mid V)
    (k : String) :
    (V1.flashCall s k none).1 = recGet s.stored.flash k ∧
    ((V1.flashCall s k none).2).newFlash = s.newFlash ∧
    ((V1.flashCall s k none).2).stored = s.stored ∧
    ((V1.flashCall s k none).2).consumedFlash =
      (if recHas s.stored.flash k then [k] else []) ++ s.consumedFlash := by
  cases hg : recGet s.stored.flash k with
  | none =>
    have h : recHas s.stored.flash k = false := by simp [recHas, hg]
    simp [V1.flashCall, h, hg]
  | some w =>
    have h : recHas s.stored.flash k = true := by simp [recHas, hg]
    simp [V1.flashCall, h, hg]

/-- C8: `flash(k, v)` stages into the new-flash namespace only — the
pre-request flash set is unchanged and a `flash(k')` read later in the same
request returns exactly what it would have returned before staging (the two
namespaces are distinct until the merge at save time) — while `hasFlash k`
is true exactly when `k` is present in the pre-request flash set or in the
newly staged set. -/
theorem c8_flash_staging_is_next_request_only {V : Type} (s : V1.Mid V)
    (k k' : String) (v : V) :
    ((V1.flashCall s k (some v)).2).stored.flash = s.stored.flash ∧
    (V1.flashCall ((V1.flashCall s k (some v)).2) k' none).1 =
      (V1.flashCall s k' none).1 ∧
    ((V1.flashCall s k (some v)).2).newFlash = recSet s.newFlash k v ∧
    (V1.hasFlash s k = true ↔
      (recGet s.stored.flash k).isSome ∨ (recGet s.newFlash k).isSome) := by
  refine ⟨rfl, ?_, rfl, ?_⟩
  · by_cases h : recHas s.stored.flash k' <;> simp [V1.flashCall, h]
  · simp [V1.hasFlash, recHas]

/-- C7 counterexample: the claim says a flash entry set via `flash(k, v)`
during a request is visible for read (via `flash(k)`) during that same
request.  On the code, `flash(k)` reads only the pre-request flash set, so
in a request starting with no flash entries, staging `flash("k", "v")` and
then calling `flash("k")` returns `undefined`, not `"v"`. -/
theorem c7_counterexample :
    (V1.flashCall
      (V1.flashCall
        ({ store := fun _ => none, sessionId := some "sid",
           initialSessionId := "sid", ctxSessionId := "sid", ctxSession := [],
           stored := { data := [], flash := [], lastSeenAt := 0 },
           consumedFlash := [], newFlash := [], uuidIdx := 0 } : V1.Mid String)
        "k" (some "v")).2
      "k" none).1 = none := by
  rfl

/-- C7 (amended): a flash entry set via `flash(k, v)` during a request —
for ANY state, including one with no pre-request entry under `k` — is
visible during that same request via `hasFlash(k)`, but not via `flash(k)`:
after staging, `flash(k)` still returns exactly the pre-request flash value
(`undefined` when there is none); pre-request entries are readable multiple
times within the request (reads mark consumption but do not remove the
entry from the working set). -/
theorem c7_flash_set_visible_same_request_via_hasFlash {V : Type}
    (s : V1.Mid V) (k : String) (v : V) :
    V1.hasFlash ((V1.flashCall s k (some v)).2) k = true ∧
    (V1.flashCall ((V1.flashCall s k (some v)).2) k none).1 =
      recGet s.stored.flash k ∧
    (∀ w, recGet s.stored.flash k = some w →
      (V1.flashCall s k none).1 = some w ∧
      (V1.flashCall ((V1.flashCall s k none).2) k none).1 = some w) := by
  refine ⟨?_, ?_, ?_⟩
  · simp [V1.hasFlash, V1.flashCall, recHas, recGet_recSet_self]
  · cases hg : recGet s.stored.flash k with
    | none =>
      have h : recHas s.stored.flash k = false := by simp [recHas, hg]
      simp [V1.flashCall, h, hg]
    | some w =>
      have h : recHas s.stored.flash k = true := by simp [recHas, hg]
      simp [V1.flashCall, h, hg]
  · intro w hw
    have hh : recHas s.stored.flash k = true := by simp [recHas, hw]
    constructor <;> simp [V1.flashCall, hh, hw]

/-- A concrete mid-request state whose pre-request flash set holds one
entry; input for the C7 witness. -/
def flashDemo : V1.Mid String :=
  { store := fun _ => none, sessionId := some "sid", initialSessionId := "sid",
    ctxSessionId := "sid", ctxSession := [],
    stored := { data := [], flash := [("k", "w")], lastSeenAt := 0 },
    consumedFlash := [], newFlash := [], uuidIdx := 0 }

/-- Witness for the amended C7 at a concrete state: staging the fresh key
`"j"` (no pre-request entry) makes it `hasFlash`-visible while `flash("j")`
still reads `undefined`; the pre-request entry under `"k"` is read twice. -/
theorem c7_flash_set_visible_same_request_via_hasFlash_witness :
    V1.hasFlash ((V1.flashCall flashDemo "j" (some "v")).2) "j" = true ∧
    (V1.flashCall ((V1.flashCall flashDemo "j" (some "v")).2) "j" none).1 =
      recGet flashDemo.stored.flash "j" ∧
    recGet flashDemo.stored.flash "j" = none ∧
    recGet flashDemo.stored.flash "k" = some "w" ∧
    (V1.flashCall flashDemo "k" none).1 = some "w" ∧
    (V1.flashCall ((V1.flashCall flashDemo "k" none).2) "k" none).1 =
      some "w" :=
  ⟨(c7_flash_set_visible_same_request_via_hasFlash flashDemo "j" "v").1,
   (c7_flash_set_visible_same_request_via_hasFlash flashDemo "j" "v").2.1,
   rfl, rfl,
   ((c7_flash_set_visible_same_request_via_hasFlash flashDemo "k" "v").2.2
     "w" rfl).1,
   ((c7_flash_set_visible_same_request_via_hasFlash flashDemo "k" "v").2.2
     "w" rfl).2⟩

/-- C9: a request carrying a session cookie whose value does not resolve to
a stored record is not an error: the unknown id is discarded, a brand-new
random session id is issued (and set as the response cookie), and the
request-scoped session state is the empty mapping; nothing is ever persisted
or echoed under the unknown id. -/
theorem c9_unknown_cookie_issues_fresh_session {V : Type}
    (uuids : Nat → String) (now : Nat)
    (store₀ : Store (V1.StoredSession V) V) (sid : String) (i : Nat)
    (hsid : sid ≠ "") (hst : store₀ sid = none) (hnn : uuids i ≠ "")
    (hnew : uuids i ≠ sid) :
    (V1.handleRequest uuids now store₀ (some sid) [] i).session = [] ∧
    (V1.handleRequest uuids now store₀ (some sid) [] i).cookie =
      CookieOut.setTo (uuids i) ∧
    (V1.handleRequest uuids now store₀ (some sid) [] i).cookie ≠
      CookieOut.setTo sid ∧
    (V1.handleRequest uuids now store₀ (some sid) [] i).store sid = none := by
  refine ⟨?_, ?_, ?_, ?_⟩ <;>
    simp [V1.handleRequest, V1.hydrate, hsid, hst, V1.runActions,
          performFlashCleanup, storeSet, hnn, hnew, Ne.symm hnew]

/-- Witness for C9 at concrete inputs. -/
theorem c9_unknown_cookie_issues_fresh_session_witness :
    ("sid" : String) ≠ "" ∧ ("fresh-id" : String) ≠ "" ∧
    ("fresh-id" : String) ≠ "sid" ∧
    ((V1.handleRequest (fun _ => "fresh-id") 7 (fun _ => none) (some "sid")
        ([] : List (Action String)) 0).session = [] ∧
     (V1.handleRequest (fun _ => "fresh-id") 7 (fun _ => none) (some "sid")
        ([] : List (Action String)) 0).cookie = CookieOut.setTo "fresh-id" ∧
     (V1.handleRequest (fun _ => "fresh-id") 7 (fun _ => none) (some "sid")
        ([] : List (Action String)) 0).cookie ≠ CookieOut.setTo "sid" ∧
     (V1.handleRequest (fun _ => "fresh-id") 7 (fun _ => none) (some "sid")
        ([] : List (Action String)) 0).store "sid" = none) :=
  ⟨by decide, by decide, by decide,
   c9_unknown_cookie_issues_fresh_session (fun _ => "fresh-id") 7
     (fun _ => none) "sid" 0 (by decide) rfl (by decide) (by decide)⟩

/-- C2: when the downstream handler directly mutates `ctx.state.sessionId`
(not via `login`/`logout`) to a value `a` different from the Engine-issued
id, the Engine rotates after `next()` returns: the handler-supplied value is
neither echoed in the cookie nor written to storage, a freshly generated
random id becomes the final session id, and the prior stored record is
deleted. -/
theorem c2_handler_id_mutation_forces_secure_rotation {V : Type}
    (uuids : Nat → String) (now : Nat)
    (store₀ : Store (V1.StoredSession V) V) (sid a : String)
    (R : V1.StoredSession V) (i : Nat)
    (hsid : sid ≠ "") (hst : store₀ sid = some (Raw.current R))
    (hne : a ≠ sid) (hfa : uuids i ≠ a) (hfs : uuids i ≠ sid) :
    (V1.handleRequest uuids now store₀ (some sid) [Action.setSessionId a]
        i).cookie = CookieOut.setTo (uuids i) ∧
    (V1.handleRequest uuids now store₀ (some sid) [Action.setSessionId a]
        i).cookie ≠ CookieOut.setTo a ∧
    (V1.handleRequest uuids now store₀ (some sid) [Action.setSessionId a]
        i).sessionId = some (uuids i) ∧
    (V1.handleRequest uuids now store₀ (some sid) [Action.setSessionId a]
        i).store sid = none ∧
    (V1.handleRequest uuids now store₀ (some sid) [Action.setSessionId a]
        i).store a = store₀ a ∧
    (∃ S, (V1.handleRequest uuids now store₀ (some sid)
        [Action.setSessionId a] i).store (uuids i) = some (Raw.current S)) := by
  refine ⟨?_, ?_, ?_, ?_, ?_, ?_⟩ <;>
    simp [V1.handleRequest, V1.hydrate, hsid, hst, V1.runActions,
          V1.stepAction, V1.rotateSession, storeSet, storeDelete, hne, hfa,
          hfs, Ne.symm hne, Ne.symm hfa, Ne.symm hfs]

/-- A concrete empty stored record over `String` values, used by witnesses. -/
def demoRecord : V1.StoredSession String :=
  { data := [], flash := [], lastSeenAt := 0 }

/-- A concrete one-entry store mapping `"sid"` to `demoRecord`, used by
witnesses. -/
def demoStore : Store (V1.StoredSession String) String :=
  fun x => if x = "sid" then some (Raw.current demoRecord) else none

/-- A concrete random-UUID supply that always yields `"new-id"`, used by
witnesses. -/
def demoUuids : Nat → String := fun _ => "new-id"

/-- Witness for C2 at concrete inputs. -/
theorem c2_handler_id_mutation_forces_secure_rotation_witness :
    ("sid" : String) ≠ "" ∧ demoStore "sid" = some (Raw.current demoRecord) ∧
    ("attacker" : String) ≠ "sid" ∧ demoUuids 0 ≠ "attacker" ∧
    demoUuids 0 ≠ "sid" ∧
    ((V1.handleRequest demoUuids 5 demoStore (some "sid")
        [Action.setSessionId "attacker"] 0).cookie =
      CookieOut.setTo (demoUuids 0) ∧
     (V1.handleRequest demoUuids 5 demoStore (some "sid")
        [Action.setSessionId "attacker"] 0).cookie ≠
      CookieOut.setTo "attacker" ∧
     (V1.handleRequest demoUuids 5 demoStore (some "sid")
        [Action.setSessionId "attacker"] 0).sessionId = some (demoUuids 0) ∧
     (V1.handleRequest demoUuids 5 demoStore (some "sid")
        [Action.setSessionId "attacker"] 0).store "sid" = none ∧
     (V1.handleRequest demoUuids 5 demoStore (some "sid")
        [Action.setSessionId "attacker"] 0).store "attacker" =
      demoStore "attacker" ∧
     (∃ S, (V1.handleRequest demoUuids 5 demoStore (some "sid")
        [Action.setSessionId "attacker"] 0).store (demoUuids 0) =
      some (Raw.current S))) :=
  ⟨by decide, rfl, by decide, by decide, by decide,
   c2_handler_id_mutation_forces_secure_rotation demoUuids 5 demoStore
     "sid" "attacker" demoRecord 0 (by decide) rfl (by decide) (by decide)
     (by decide)⟩

theorem performFlashCleanup_nil_get {V : Type} (old : Rec V)
    (c : List String) (j : String) :
    recGet (performFlashCleanup old c []) j =
      if j ∈ c then none else recGet old j := by
  simp only [performFlashCleanup, List.foldl_nil]
  exact recGet_filter_consumed old c j

theorem performFlashCleanup_single_get_self {V : Type} (old : Rec V)
    (c : List String) (k : String) (v : V) :
    recGet (performFlashCleanup old c (recSet [] k v)) k = some v := by
  simp only [performFlashCleanup, recSet, List.foldl_cons, List.foldl_nil]
  exact recGet_recSet_self _ k v

theorem performFlashCleanup_single_get_ne {V : Type} (old : Rec V)
    (c : List String) {k j : String} (v : V) (h : j ≠ k) :
    recGet (performFlashCleanup old c (recSet [] k v)) j =
      if j ∈ c then none else recGet old j := by
  simp only [performFlashCleanup, recSet, List.foldl_cons, List.foldl_nil]
  rw [recGet_recSet_ne _ _ h]
  exact recGet_filter_consumed old c j

/-- A request with a valid cookie and no handler activity persists under the
same id and issues the same cookie (helper). -/
theorem fresh_request_facts {V : Type} (uuids : Nat → String) (now : Nat)
    (store₀ : Store (V1.StoredSession V) V) (sid : String) (i : Nat)
    (hsid : sid ≠ "") (hst : store₀ sid = none) (hnn : uuids i ≠ "") :
    (V1.handleRequest uuids now store₀ (some sid) [] i).session = [] ∧
    (V1.handleRequest uuids now store₀ (some sid) [] i).cookie =
      CookieOut.setTo (uuids i) := by
  refine ⟨?_, ?_⟩ <;>
    simp [V1.handleRequest, V1.hydrate, hsid, hst, V1.runActions, hnn]

/-- A request over a valid current-shape record that only stages
`flash(k, v)` persists, under the same id, the record with the staged entry
merged into the flash set (helper). -/
theorem staged_request_facts {V : Type} (uuids : Nat → String) (now : Nat)
    (store₀ : Store (V1.StoredSession V) V) (sid k : String) (v : V) (i : Nat)
    (R : V1.StoredSession V)
    (hsid : sid ≠ "") (hst : store₀ sid = some (Raw.current R)) :
    (V1.handleRequest uuids now store₀ (some sid)
        [Action.flashOp k (some v)] i).store sid =
      some (Raw.current
        { data := R.data, flash := performFlashCleanup R.flash [] (recSet [] k v),
          userId := R.userId, lastSeenAt := now }) ∧
    (V1.handleRequest uuids now store₀ (some sid)
        [Action.flashOp k (some v)] i).cookie = CookieOut.setTo sid := by
  refine ⟨?_, ?_⟩ <;>
    simp [V1.handleRequest, V1.hydrate, hsid, hst, V1.runActions,
          V1.stepAction, V1.flashCall, storeSet]

/-- A request over a valid current-shape record holding flash entry `k ↦ w`
that reads `flash(k)`: the read returns `w` and the persisted record drops
the consumed entry via `performFlashCleanup` (helper). -/
theorem read_flash_request_facts {V : Type} (uuids : Nat → String) (now : Nat)
    (store₀ : Store (V1.StoredSession V) V) (sid k : String) (i : Nat)
    (R : V1.StoredSession V) (w : V)
    (hsid : sid ≠ "") (hst : store₀ sid = some (Raw.current R))
    (hk : recGet R.flash k = some w) :
    (V1.handleRequest uuids now store₀ (some sid)
        [Action.flashOp k none] i).reads = [some w] ∧
    (V1.handleRequest uuids now store₀ (some sid)
        [Action.flashOp k none] i).store sid =
      some (Raw.current
        { data := R.data, flash := performFlashCleanup R.flash [k] [],
          userId := R.userId, lastSeenAt := now }) := by
  have hh : recHas R.flash k = true := by simp [recHas, hk]
  refine ⟨?_, ?_⟩ <;>
    simp [V1.handleRequest, V1.hydrate, hsid, hst, V1.runActions,
          V1.stepAction, V1.flashCall, hh, hk, storeSet]

/-- A request over a valid current-shape record with no flash entry under
`k` that reads `flash(k)`: the read returns `undefined` (helper). -/
theorem read_flash_absent_facts {V : Type} (uuids : Nat → String) (now : Nat)
    (store₀ : Store (V1.StoredSession V) V) (sid k : String) (i : Nat)
    (R : V1.StoredSession V)
    (hsid : sid ≠ "") (hst : store₀ sid = some (Raw.current R))
    (hk : recGet R.flash k = none) :
    (V1.handleRequest uuids now store₀ (some sid)
        [Action.flashOp k none] i).reads = [none] := by
  have hh : recHas R.flash k = false := by simp [recHas, hk]
  simp [V1.handleRequest, V1.hydrate, hsid, hst, V1.runActions,
        V1.stepAction, V1.flashCall, hh]

/-- C6: `login(uid, d)` rotates the session: the pre-login record is deleted
and a new random id carries the new record (with `userId` set and `data`
replaced), storage is touched under no other id, and a later request
presenting the pre-login session id yields an empty session under yet
another fresh id — the id-to-record mapping stays 1:1. -/
theorem c6_login_rotates_and_invalidates_old_id {V : Type}
    (uuids uuids2 : Nat → String) (now now2 : Nat)
    (store₀ : Store (V1.StoredSession V) V) (sid uid : String)
    (d : Option (Rec V)) (R : V1.StoredSession V) (i j : Nat)
    (hsid : sid ≠ "") (hst : store₀ sid = some (Raw.current R))
    (hfs : uuids i ≠ sid) (hnn : uuids i ≠ "") (h2n : uuids2 j ≠ "") :
    (V1.handleRequest uuids now store₀ (some sid) [Action.loginOp uid d]
        i).store sid = none ∧
    (V1.handleRequest uuids now store₀ (some sid) [Action.loginOp uid d]
        i).cookie = CookieOut.setTo (uuids i) ∧
    (∃ S, (V1.handleRequest uuids now store₀ (some sid)
        [Action.loginOp uid d] i).store (uuids i) = some (Raw.current S) ∧
      S.userId = some uid ∧ S.data = d.getD []) ∧
    (∀ x, x ≠ uuids i → x ≠ sid →
      (V1.handleRequest uuids now store₀ (some sid) [Action.loginOp uid d]
        i).store x = store₀ x) ∧
    (V1.handleRequest uuids2 now2
        (V1.handleRequest uuids now store₀ (some sid) [Action.loginOp uid d]
          i).store (some sid) [] j).session = [] ∧
    (V1.handleRequest uuids2 now2
        (V1.handleRequest uuids now store₀ (some sid) [Action.loginOp uid d]
          i).store (some sid) [] j).cookie = CookieOut.setTo (uuids2 j) := by
  have hgone : (V1.handleRequest uuids now store₀ (some sid)
      [Action.loginOp uid d] i).store sid = none := by
    simp [V1.handleRequest, V1.hydrate, hsid, hst, V1.runActions,
          V1.stepAction, V1.login, V1.rotateSession, storeSet, storeDelete,
          hnn, hfs, Ne.symm hfs]
  refine ⟨hgone, ?_, ?_, ?_,
    (fresh_request_facts uuids2 now2 _ sid j hsid hgone h2n).1,
    (fresh_request_facts uuids2 now2 _ sid j hsid hgone h2n).2⟩
  · simp [V1.handleRequest, V1.hydrate, hsid, hst, V1.runActions,
          V1.stepAction, V1.login, V1.rotateSession, hnn]
  · refine ⟨⟨d.getD [], performFlashCleanup R.flash [] [], some uid, now⟩,
      ?_, rfl, rfl⟩
    simp [V1.handleRequest, V1.hydrate, hsid, hst, V1.runActions,
          V1.stepAction, V1.login, V1.rotateSession, storeSet, hnn]
  · intro x hx1 hx2
    simp [V1.handleRequest, V1.hydrate, hsid, hst, V1.runActions,
          V1.stepAction, V1.login, V1.rotateSession, storeSet, storeDelete,
          hnn, hx1, hx2]

/-- A second concrete random-UUID supply, used by witnesses needing two
requests that each consume a fresh id. -/
def demoUuids2 : Nat → String := fun _ => "second-id"

/-- Witness for C6 at concrete inputs. -/
theorem c6_login_rotates_and_invalidates_old_id_witness :
    ("sid" : String) ≠ "" ∧ demoStore "sid" = some (Raw.current demoRecord) ∧
    demoUuids 0 ≠ "sid" ∧ demoUuids 0 ≠ "" ∧ demoUuids2 0 ≠ "" ∧
    ((V1.handleRequest demoUuids 3 demoStore (some "sid")
        [Action.loginOp "alice" none] 0).store "sid" = none ∧
     (V1.handleRequest demoUuids 3 demoStore (some "sid")
        [Action.loginOp "alice" none] 0).cookie =
      CookieOut.setTo (demoUuids 0) ∧
     (∃ S, (V1.handleRequest demoUuids 3 demoStore (some "sid")
        [Action.loginOp "alice" none] 0).store (demoUuids 0) =
        some (Raw.current S) ∧ S.userId = some "alice" ∧ S.data = []) ∧
     (∀ x, x ≠ demoUuids 0 → x ≠ "sid" →
       (V1.handleRequest demoUuids 3 demoStore (some "sid")
         [Action.loginOp "alice" none] 0).store x = demoStore x) ∧
     (V1.handleRequest demoUuids2 4
        (V1.handleRequest demoUuids 3 demoStore (some "sid")
          [Action.loginOp "alice" none] 0).store (some "sid") [] 0).session =
      [] ∧
     (V1.handleRequest demoUuids2 4
        (V1.handleRequest demoUuids 3 demoStore (some "sid")
          [Action.loginOp "alice" none] 0).store (some "sid") [] 0).cookie =
      CookieOut.setTo (demoUuids2 0)) :=
  ⟨by decide, rfl, by decide, by decide, by decide,
   c6_login_rotates_and_invalidates_old_id demoUuids demoUuids2 3 4 demoStore
     "sid" "alice" none demoRecord 0 0 (by decide) rfl (by decide) (by decide)
     (by decide)⟩

/-- C1: a flash entry staged with `flash(k, v)` during request N is readable
exactly once across the save boundary.  Request N persists it (merged
alongside the untouched unconsumed entries) and echoes the same cookie;
request N+1 presenting that cookie reads `v` from `flash(k)` and, because
the read marks the entry consumed, the record persisted at the end of
request N+1 no longer holds `k` (entries never read are persisted
unchanged); request N+2 then reads `undefined`. -/
theorem c1_flash_single_read_across_save_boundary {V : Type}
    (uuids : Nat → String) (now1 now2 now3 : Nat)
    (store₀ : Store (V1.StoredSession V) V) (sid k : String) (v : V)
    (R : V1.StoredSession V) (i1 i2 i3 : Nat)
    (hsid : sid ≠ "") (hst : store₀ sid = some (Raw.current R)) :
    (V1.handleRequest uuids now1 store₀ (some sid)
        [Action.flashOp k (some v)] i1).cookie = CookieOut.setTo sid ∧
    (∃ R1, (V1.handleRequest uuids now1 store₀ (some sid)
        [Action.flashOp k (some v)] i1).store sid = some (Raw.current R1) ∧
      recGet R1.flash k = some v ∧
      ∀ j, j ≠ k → recGet R1.flash j = recGet R.flash j) ∧
    (V1.handleRequest uuids now2
        (V1.handleRequest uuids now1 store₀ (some sid)
          [Action.flashOp k (some v)] i1).store (some sid)
        [Action.flashOp k none] i2).reads = [some v] ∧
    (∃ R2, (V1.handleRequest uuids now2
        (V1.handleRequest uuids now1 store₀ (some sid)
          [Action.flashOp k (some v)] i1).store (some sid)
        [Action.flashOp k none] i2).store sid = some (Raw.current R2) ∧
      recGet R2.flash k = none ∧
      ∀ j, j ≠ k → recGet R2.flash j = recGet R.flash j) ∧
    (V1.handleRequest uuids now3
        (V1.handleRequest uuids now2
          (V1.handleRequest uuids now1 store₀ (some sid)
            [Action.flashOp k (some v)] i1).store (some sid)
          [Action.flashOp k none] i2).store (some sid)
        [Action.flashOp k none] i3).reads = [none] := by
  have h1 := staged_request_facts uuids now1 store₀ sid k v i1 R hsid hst
  have hF1k := performFlashCleanup_single_get_self R.flash [] k v
  have hF1j : ∀ j, j ≠ k →
      recGet (performFlashCleanup R.flash [] (recSet [] k v)) j =
        recGet R.flash j := by
    intro j hj
    rw [performFlashCleanup_single_get_ne R.flash [] v hj]
    simp
  have h2 := read_flash_request_facts uuids now2 _ sid k i2
    ⟨R.data, performFlashCleanup R.flash [] (recSet [] k v), R.userId, now1⟩
    v hsid h1.1 hF1k
  have hF2k : recGet (performFlashCleanup
      (performFlashCleanup R.flash [] (recSet [] k v)) [k] []) k = none := by
    rw [performFlashCleanup_nil_get]
    simp
  have hF2j : ∀ j, j ≠ k → recGet (performFlashCleanup
      (performFlashCleanup R.flash [] (recSet [] k v)) [k] []) j =
        recGet R.flash j := by
    intro j hj
    rw [performFlashCleanup_nil_get, if_neg (by simp [hj])]
    exact hF1j j hj
  have h3 := read_flash_absent_facts uuids now3 _ sid k i3
    ⟨R.data, performFlashCleanup
       (performFlashCleanup R.flash [] (recSet [] k v)) [k] [],
     R.userId, now2⟩
    hsid h2.2 hF2k
  exact ⟨h1.2,
    ⟨⟨R.data, performFlashCleanup R.flash [] (recSet [] k v), R.userId, now1⟩,
     h1.1, hF1k, hF1j⟩,
    h2.1,
    ⟨⟨R.data, performFlashCleanup
        (performFlashCleanup R.flash [] (recSet [] k v)) [k] [],
      R.userId, now2⟩,
     h2.2, hF2k, hF2j⟩,
    h3⟩

/-- Witness for C1 at concrete inputs. -/
theorem c1_flash_single_read_across_save_boundary_witness :
    ("sid" : String) ≠ "" ∧ demoStore "sid" = some (Raw.current demoRecord) ∧
    ((V1.handleRequest demoUuids 1 demoStore (some "sid")
        [Action.flashOp "k" (some "v0")] 0).cookie = CookieOut.setTo "sid" ∧
     (∃ R1, (V1.handleRequest demoUuids 1 demoStore (some "sid")
        [Action.flashOp "k" (some "v0")] 0).store "sid" =
          some (Raw.current R1) ∧
       recGet R1.flash "k" = some "v0" ∧
       ∀ j, j ≠ "k" → recGet R1.flash j = recGet demoRecord.flash j) ∧
     (V1.handleRequest demoUuids 2
        (V1.handleRequest demoUuids 1 demoStore (some "sid")
          [Action.flashOp "k" (some "v0")] 0).store (some "sid")
        [Action.flashOp "k" none] 0).reads = [some "v0"] ∧
     (∃ R2, (V1.handleRequest demoUuids 2
        (V1.handleRequest demoUuids 1 demoStore (some "sid")
          [Action.flashOp "k" (some "v0")] 0).store (some "sid")
        [Action.flashOp "k" none] 0).store "sid" = some (Raw.current R2) ∧
       recGet R2.flash "k" = none ∧
       ∀ j, j ≠ "k" → recGet R2.flash j = recGet demoRecord.flash j) ∧
     (V1.handleRequest demoUuids 3
        (V1.handleRequest demoUuids 2
          (V1.handleRequest demoUuids 1 demoStore (some "sid")
            [Action.flashOp "k" (some "v0")] 0).store (some "sid")
          [Action.flashOp "k" none] 0).store (some "sid")
        [Action.flashOp "k" none] 0).reads = [none]) :=
  ⟨by decide, rfl,
   c1_flash_single_read_across_save_boundary demoUuids 1 2 3 demoStore
     "sid" "k" "v0" demoRecord 0 0 0 (by decide) rfl⟩

namespace V2

/-- The `StoredSession` record of `src/unnamed/part_005`: as in `V1` plus
the optional `ua`/`ip` client-signal snapshots. -/
structure StoredSession (V : Type) where
  data : Rec V
  flash : Rec V
  userId : Option String := none
  ua : Option String := none
  ip : Option String := none
  lastSeenAt : Nat
  deriving DecidableEq

/-- The `trackIp` option: off, `true` (use `ctx.info.remoteAddr`), or
`{ header: h }` (use the named request header). -/
inductive TrackIp where
  | off
  | remoteAddr
  | header (h : String)
  deriving DecidableEq

/-- The middleware options relevant to the embedded logic. -/
structure Options where
  trackUserAgent : Bool := false
  trackIp : TrackIp := TrackIp.off

/-- The request signals the middleware inspects: the session cookie value,
the header map, and the remote address hostname. -/
structure Req where
  cookie : Option String
  headers : String → Option String
  remoteAddr : String

/-- The JS `x || undefined` coercion on a nullable header value: absent and
empty strings both become `undefined`. -/
def orUndef (x : Option String) : Option String :=
  match x with
  | some s => if s = "" then none else some s
  | none => none

/-- `currentUa` capture: the `user-agent` header when `trackUserAgent` is
enabled. -/
def currentUa (opts : Options) (req : Req) : Option String :=
  if opts.trackUserAgent then orUndef (req.headers "user-agent") else none

/-- `currentIp` capture per the `trackIp` option. -/
def currentIp (opts : Options) (req : Req) : Option String :=
  match opts.trackIp with
  | TrackIp.off => none
  | TrackIp.header h => orUndef (req.headers h)
  | TrackIp.remoteAddr => some req.remoteAddr

/-- The mid-request state of the `part_005` middleware.  Unlike `V1`,
`sessionId` is always a string after hydration: the `part_005` `logout`
assigns a fresh random id instead of `undefined`. -/
structure Mid (V : Type) where
  store : Store (StoredSession V) V
  sessionId : String
  initialSessionId : String
  ctxSessionId : String
  ctxSession : Rec V
  stored : StoredSession V
  consumedFlash : List String
  newFlash : Rec V
  uuidIdx : Nat

/-- The `ctx.state.flash` closure of `part_005` (same code as `V1`). -/
def flashCall {V : Type} (s : Mid V) (key : String) (value : Option V) :
    Option V × Mid V :=
  match value with
  | none =>
    if recHas s.stored.flash key then
      (recGet s.stored.flash key,
       { s with consumedFlash := key :: s.consumedFlash })
    else
      (none, s)
  | some v =>
    (none, { s with newFlash := recSet s.newFlash key v })

/-- The `ctx.state.hasFlash` closure of `part_005` (same code as `V1`). -/
def hasFlash {V : Type} (s : Mid V) (key : String) : Bool :=
  recHas s.stored.flash key || recHas s.newFlash key

/-- The `rotateSession` helper of `part_005` (same code as `V1`). -/
def rotateSession {V : Type} (uuids : Nat → String) (s : Mid V) : Mid V :=
  let newId := uuids s.uuidIdx
  { s with
    store := storeDelete s.store s.initialSessionId
    sessionId := newId
    ctxSessionId := newId
    uuidIdx := s.uuidIdx + 1 }

/-- `ctx.state.login` of `part_005` (same code as `V1`). -/
def login {V : Type} (uuids : Nat → String) (s : Mid V) (userId : String)
    (data : Option (Rec V)) : Mid V :=
  let s1 := rotateSession uuids s
  let d := data.getD []
  { s1 with
    stored := { s1.stored with userId := some userId, data := d }
    ctxSession := d }

/-- The `logout` closure of `part_005` (lines 220-234): delete the record
under the current id when one is set (`if (sessionId)` — the empty string is
falsy), then assign a fresh random id to the session and to
`ctx.state.sessionId`, clear `ctx.state.session`, and reset the working
record to a fresh empty one carrying the current `ua`/`ip` snapshots.  The
session is NOT marked unsaved: the fresh empty session is persisted and its
id set as the cookie. -/
def logout {V : Type} (uuids : Nat → String) (now : Nat)
    (ua ip : Option String) (s : Mid V) : Mid V :=
  let deleted := if s.sessionId = "" then s.store
                 else storeDelete s.store s.sessionId
  let newId := uuids s.uuidIdx
  { s with
    store := deleted
    sessionId := newId
    ctxSessionId := newId
    ctxSession := []
    stored := { data := [], flash := [], userId := none, ua := ua, ip := ip,
                lastSeenAt := now }
    uuidIdx := s.uuidIdx + 1 }

/-- One handler-visible operation (as in `V1`, with the `part_005`
`logout`). -/
def stepAction {V : Type} (uuids : Nat → String) (now : Nat)
    (ua ip : Option String) (s : Mid V) : Action V → Mid V × Option (Option V)
  | Action.flashOp k v =>
    let out := flashCall s k v
    (out.2, match v with | none => some out.1 | some _ => none)
  | Action.loginOp uid d => (login uuids s uid d, none)
  | Action.logoutOp => (logout uuids now ua ip s, none)
  | Action.setSessionId id => ({ s with ctxSessionId := id }, none)

/-- Run the downstream handler (as in `V1`). -/
def runActions {V : Type} (uuids : Nat → String) (now : Nat)
    (ua ip : Option String) :
    List (Action V) → Mid V → Mid V × List (Option V)
  | [], s => (s, [])
  | a :: rest, s =>
    let st := stepAction uuids now ua ip s a
    let r := runActions uuids now ua ip rest st.1
    (r.1, st.2.toList ++ r.2)

/-- The result of the `part_005` hydration phase, which can already touch
the store (the user-agent-mismatch logout). -/
structure Hyd (V : Type) where
  store : Store (StoredSession V) V
  sessionId : Option String
  stored : StoredSession V
  uuidIdx : Nat

/-- Hydration of `part_005` (lines 211-263): capture client signals, look
up the cookie's record, adopt a current-shape record — but when
`trackUserAgent` is enabled and the stored `ua` differs from the current
User-Agent, force an immediate logout (delete the record, take a fresh
random id, reset the working record to empty) before the handler runs;
treat a legacy flat object as `data` with refreshed signals; discard an
unknown id. -/
def hydrate {V : Type} (opts : Options) (uuids : Nat → String) (now : Nat)
    (store₀ : Store (StoredSession V) V) (req : Req) (idx₀ : Nat) : Hyd V :=
  let cua := currentUa opts req
  let cip := currentIp opts req
  let base : StoredSession V :=
    { data := [], flash := [], ua := cua, ip := cip, lastSeenAt := now }
  match req.cookie with
  | none => ⟨store₀, none, base, idx₀⟩
  | some sid =>
    if sid = "" then ⟨store₀, none, base, idx₀⟩
    else
      match store₀ sid with
      | none => ⟨store₀, none, base, idx₀⟩
      | some (Raw.legacy d) =>
        ⟨store₀, some sid, { base with data := d, ua := cua, ip := cip }, idx₀⟩
      | some (Raw.current s) =>
        if opts.trackUserAgent = true ∧ s.ua ≠ cua then
          ⟨storeDelete store₀ sid, some (uuids idx₀),
           { data := [], flash := [], userId := none, ua := cua, ip := cip,
             lastSeenAt := now },
           idx₀ + 1⟩
        else
          ⟨store₀, some sid, s, idx₀⟩

/-- One full request through the `part_005` middleware.  There is no
clear-cookie early return: after the rotation-on-mismatch check and
`performFlashCleanup`, the working record (with refreshed `lastSeenAt` and,
when tracking is enabled, refreshed `ua`/`ip`) is always saved under the
final id, which is always set as the response cookie. -/
def handleRequest {V : Type} (opts : Options) (uuids : Nat → String)
    (now : Nat) (store₀ : Store (StoredSession V) V) (req : Req)
    (actions : List (Action V)) (idx₀ : Nat) : Result (StoredSession V) V :=
  let cua := currentUa opts req
  let cip := currentIp opts req
  let hyd := hydrate opts uuids now store₀ req idx₀
  let assigned : String × Nat :=
    match hyd.sessionId with
    | some sid => (sid, hyd.uuidIdx)
    | none => (uuids hyd.uuidIdx, hyd.uuidIdx + 1)
  let s₀ : Mid V :=
    { store := hyd.store
      sessionId := assigned.1
      initialSessionId := assigned.1
      ctxSessionId := assigned.1
      ctxSession := hyd.stored.data
      stored := hyd.stored
      consumedFlash := []
      newFlash := []
      uuidIdx := assigned.2 }
  let run := runActions uuids now cua cip actions s₀
  let s₁ := run.1
  let rot : Mid V × String :=
    if s₁.ctxSessionId ≠ s₁.sessionId then
      (rotateSession uuids s₁, uuids s₁.uuidIdx)
    else (s₁, s₁.sessionId)
  let s₂ := rot.1
  let sidF := rot.2
  let flashF := performFlashCleanup s₂.stored.flash s₂.consumedFlash s₂.newFlash
  let stored₁ : StoredSession V :=
    { s₂.stored with flash := flashF, lastSeenAt := now }
  let stored₂ : StoredSession V :=
    if opts.trackUserAgent then { stored₁ with ua := cua } else stored₁
  let storedF : StoredSession V :=
    match opts.trackIp with
    | TrackIp.off => stored₂
    | _ => { stored₂ with ip := cip }
  { store := storeSet s₂.store sidF (Raw.current storedF)
    cookie := CookieOut.setTo sidF
    session := s₂.ctxSession
    sessionId := some sidF
    reads := run.2
    uuidIdx := s₂.uuidIdx }

end V2

/-- C4: `logout()` deletes the current record from storage and clears the
request-scoped session to an empty mapping, and the response does not take a
clear-cookie path: a fresh rotated empty session under a new random id is
persisted and set as the response cookie. -/
theorem c4_logout_issues_fresh_rotated_session {V : Type}
    (opts : V2.Options) (uuids : Nat → String) (now : Nat)
    (store₀ : Store (V2.StoredSession V) V) (req : V2.Req) (sid : String)
    (R : V2.StoredSession V) (i : Nat)
    (hcook : req.cookie = some sid) (hsid : sid ≠ "")
    (hst : store₀ sid = some (Raw.current R))
    (hua : opts.trackUserAgent = false ∨ R.ua = V2.currentUa opts req)
    (hfresh : uuids i ≠ sid) :
    (V2.handleRequest opts uuids now store₀ req [Action.logoutOp] i).store
      sid = none ∧
    (V2.handleRequest opts uuids now store₀ req [Action.logoutOp] i).session
      = [] ∧
    (V2.handleRequest opts uuids now store₀ req [Action.logoutOp] i).cookie
      = CookieOut.setTo (uuids i) ∧
    (∃ S, (V2.handleRequest opts uuids now store₀ req [Action.logoutOp]
        i).store (uuids i) = some (Raw.current S) ∧
      S.data = [] ∧ S.flash = [] ∧ S.userId = none) := by
  have hcond : ¬(opts.trackUserAgent = true ∧ R.ua ≠ V2.currentUa opts req) := by
    rcases hua with h | h
    · simp [h]
    · simp [h]
  have hyd_eq : V2.hydrate opts uuids now store₀ req i =
      ⟨store₀, some sid, R, i⟩ := by
    simp [V2.hydrate, hcook, hsid, hst, hcond]
  refine ⟨?_, ?_, ?_, ?_⟩
  · simp [V2.handleRequest, hyd_eq, V2.runActions, V2.stepAction, V2.logout,
          hsid, storeSet, storeDelete, Ne.symm hfresh]
  · simp [V2.handleRequest, hyd_eq, V2.runActions, V2.stepAction, V2.logout,
          hsid]
  · simp [V2.handleRequest, hyd_eq, V2.runActions, V2.stepAction, V2.logout,
          hsid]
  · simp [V2.handleRequest, hyd_eq, V2.runActions, V2.stepAction, V2.logout,
          hsid, storeSet]
    cases hip : opts.trackIp <;> cases htua : opts.trackUserAgent <;>
      simp [performFlashCleanup]

/-- A concrete `V2` request whose User-Agent header is `"Firefox/1"`, used
by witnesses. -/
def demoReqV2 : V2.Req :=
  { cookie := some "sid",
    headers := fun h => if h = "user-agent" then some "Firefox/1" else none,
    remoteAddr := "1.2.3.4" }

/-- A concrete `V2` stored record created under UA `"Chrome/9000"`, used by
witnesses. -/
def demoRecordV2 : V2.StoredSession String :=
  { data := [], flash := [], ua := some "Chrome/9000", lastSeenAt := 0 }

/-- A concrete `V2` store mapping `"sid"` to `demoRecordV2`, used by
witnesses. -/
def demoStoreV2 : Store (V2.StoredSession String) String :=
  fun x => if x = "sid" then some (Raw.current demoRecordV2) else none

/-- Witness for C4 at concrete inputs (tracking disabled). -/
theorem c4_logout_issues_fresh_rotated_session_witness :
    demoReqV2.cookie = some "sid" ∧ ("sid" : String) ≠ "" ∧
    demoStoreV2 "sid" = some (Raw.current demoRecordV2) ∧
    (({} : V2.Options).trackUserAgent = false ∨
      demoRecordV2.ua = V2.currentUa {} demoReqV2) ∧
    demoUuids 0 ≠ "sid" ∧
    ((V2.handleRequest {} demoUuids 9 demoStoreV2 demoReqV2
        [Action.logoutOp] 0).store "sid" = none ∧
     (V2.handleRequest {} demoUuids 9 demoStoreV2 demoReqV2
        [Action.logoutOp] 0).session = [] ∧
     (V2.handleRequest {} demoUuids 9 demoStoreV2 demoReqV2
        [Action.logoutOp] 0).cookie = CookieOut.setTo (demoUuids 0) ∧
     (∃ S, (V2.handleRequest {} demoUuids 9 demoStoreV2 demoReqV2
        [Action.logoutOp] 0).store (demoUuids 0) = some (Raw.current S) ∧
       S.data = [] ∧ S.flash = [] ∧ S.userId = none)) :=
  ⟨rfl, by decide, rfl, Or.inl rfl, by decide,
   c4_logout_issues_fresh_rotated_session {} demoUuids 9 demoStoreV2
     demoReqV2 "sid" demoRecordV2 0 rfl (by decide) rfl (Or.inl rfl)
     (by decide)⟩

/-- C5: with `trackUserAgent` enabled, presenting a valid session id whose
current-shape stored record carries a `ua` different from the request's
User-Agent forces an immediate logout before the handler runs: already at
hydration the stored record is deleted and a fresh random id with an empty
working record is in place, and the request ends with the old id absent from
storage, empty session data, and the new id on the response cookie. -/
theorem c5_user_agent_mismatch_forces_fresh_session {V : Type}
    (opts : V2.Options) (uuids : Nat → String) (now : Nat)
    (store₀ : Store (V2.StoredSession V) V) (req : V2.Req) (sid : String)
    (R : V2.StoredSession V) (i : Nat)
    (hcook : req.cookie = some sid) (hsid : sid ≠ "")
    (hst : store₀ sid = some (Raw.current R))
    (htrk : opts.trackUserAgent = true)
    (hmis : R.ua ≠ V2.currentUa opts req)
    (hfresh : uuids i ≠ sid) :
    (V2.hydrate opts uuids now store₀ req i).store sid = none ∧
    (V2.hydrate opts uuids now store₀ req i).stored.data = [] ∧
    (V2.hydrate opts uuids now store₀ req i).stored.flash = [] ∧
    (V2.hydrate opts uuids now store₀ req i).sessionId = some (uuids i) ∧
    (V2.handleRequest opts uuids now store₀ req [] i).store sid = none ∧
    (V2.handleRequest opts uuids now store₀ req [] i).session = [] ∧
    (V2.handleRequest opts uuids now store₀ req [] i).cookie =
      CookieOut.setTo (uuids i) := by
  have hyd_eq : V2.hydrate opts uuids now store₀ req i =
      ⟨storeDelete store₀ sid, some (uuids i),
       { data := [], flash := [], userId := none,
         ua := V2.currentUa opts req, ip := V2.currentIp opts req,
         lastSeenAt := now }, i + 1⟩ := by
    simp [V2.hydrate, hcook, hsid, hst, htrk, hmis]
  refine ⟨?_, ?_, ?_, ?_, ?_, ?_, ?_⟩
  · simp [hyd_eq, storeDelete]
  · simp [hyd_eq]
  · simp [hyd_eq]
  · simp [hyd_eq]
  · simp [V2.handleRequest, hyd_eq, V2.runActions, storeSet, storeDelete,
          Ne.symm hfresh]
  · simp [V2.handleRequest, hyd_eq, V2.runActions]
  · simp [V2.handleRequest, hyd_eq, V2.runActions]

/-- Concrete `V2` options with User-Agent tracking enabled, used by
witnesses. -/
def demoOptsUa : V2.Options := { trackUserAgent := true }

/-- Witness for C5 at concrete inputs: a session created under UA
`"Chrome/9000"` presented with UA `"Firefox/1"`. -/
theorem c5_user_agent_mismatch_forces_fresh_session_witness :
    demoReqV2.cookie = some "sid" ∧ ("sid" : String) ≠ "" ∧
    demoStoreV2 "sid" = some (Raw.current demoRecordV2) ∧
    demoOptsUa.trackUserAgent = true ∧
    demoRecordV2.ua ≠ V2.currentUa demoOptsUa demoReqV2 ∧
    demoUuids 0 ≠ "sid" ∧
    ((V2.hydrate demoOptsUa demoUuids 9 demoStoreV2 demoReqV2 0).store "sid"
      = none ∧
     (V2.hydrate demoOptsUa demoUuids 9 demoStoreV2 demoReqV2 0).stored.data
      = [] ∧
     (V2.hydrate demoOptsUa demoUuids 9 demoStoreV2 demoReqV2 0).stored.flash
      = [] ∧
     (V2.hydrate demoOptsUa demoUuids 9 demoStoreV2 demoReqV2 0).sessionId
      = some (demoUuids 0) ∧
     (V2.handleRequest demoOptsUa demoUuids 9 demoStoreV2 demoReqV2
        ([] : List (Action String)) 0).store "sid" = none ∧
     (V2.handleRequest demoOptsUa demoUuids 9 demoStoreV2 demoReqV2
        ([] : List (Action String)) 0).session = [] ∧
     (V2.handleRequest demoOptsUa demoUuids 9 demoStoreV2 demoReqV2
        ([] : List (Action String)) 0).cookie =
      CookieOut.setTo (demoUuids 0)) :=
  ⟨rfl, by decide, rfl, rfl, by decide, by decide,
   c5_user_agent_mismatch_forces_fresh_session demoOptsUa demoUuids 9
     demoStoreV2 demoReqV2 "sid" demoRecordV2 0 rfl (by decide) rfl rfl
     (by decide) (by decide)⟩

namespace Tok

/-- Modelled from the spec: the stateless bearer-token options added in
v0.3.5 (`verifyToken`, `tokenHeader`, and the token prefix option), whose
implementation is not present under `src/` (only its tests, README and
changelog are).  `tokenPre` models the source's `tokenPrefix`: the default
is `some "Bearer "`, and `none` models the `null` setting that disables
prefix stripping. -/
structure Options (User : Type) where
  verifyToken : Option (String → Option User)
  tokenHeader : String := "Authorization"
  tokenPre : Option String := some "Bearer "

/-- Modelled from the spec: extract the token from the configured header's
value — strip the configured prefix when one is set (treat the header as no
match when the prefix is absent), or take the raw value when the prefix is
disabled. -/
def extractToken (pre : Option String) (hv : String) : Option String :=
  match pre with
  | none => some hv
  | some p =>
    if p.data.isPrefixOf hv.data
    then some (String.mk (hv.data.drop p.data.length))
    else none

/-- The outcome of one request of the spec-modelled v0.3.5 middleware:
either the stateless branch ran — it carries the resolved user it set on
request-scoped state and the untouched store, and by construction has no
response cookie and no persisted session — or the stateful cookie branch
produced an ordinary `V2` result. -/
inductive Outcome (User V : Type) where
  | stateless (user : User) (store : Store (V2.StoredSession V) V)
  | stateful (r : Result (V2.StoredSession V) V)

/-- Modelled from the spec: one request of the v0.3.5 middleware.  When a
verify-token callback is configured and the configured header is present,
extract the token and verify it; on success set the resolved user on
request-scoped state, skip all cookie/session logic and return the `next()`
response unmodified, never touching the store.  Otherwise fall through to
the cookie branch (the `V2` middleware). -/
def handleRequest {User V : Type} (topts : Options User) (opts : V2.Options)
    (uuids : Nat → String) (now : Nat)
    (store₀ : Store (V2.StoredSession V) V) (req : V2.Req)
    (actions : List (Action V)) (idx₀ : Nat) : Outcome User V :=
  match topts.verifyToken, req.headers topts.tokenHeader with
  | some vf, some hv =>
    match extractToken topts.tokenPre hv with
    | some tok =>
      match vf tok with
      | some u => Outcome.stateless u store₀
      | none => Outcome.stateful (V2.handleRequest opts uuids now store₀ req actions idx₀)
    | none => Outcome.stateful (V2.handleRequest opts uuids now store₀ req actions idx₀)
  | _, _ => Outcome.stateful (V2.handleRequest opts uuids now store₀ req actions idx₀)

end Tok

/-- C3: when a verify-token callback is configured and the configured token
header is present with a token that verifies successfully, the middleware
takes the stateless branch: the resolved user is set on request-scoped
state, the `next()` response is returned unmodified with no session cookie,
and the storage backend is never touched — the outcome carries the input
store unchanged and, by the shape of `Tok.Outcome.stateless`, no cookie and
no persisted record. -/
theorem c3_stateless_token_bypasses_persistence {User V : Type}
    (topts : Tok.Options User) (opts : V2.Options) (uuids : Nat → String)
    (now : Nat) (store₀ : Store (V2.StoredSession V) V) (req : V2.Req)
    (actions : List (Action V)) (idx₀ : Nat)
    (vf : String → Option User) (hv tok : String) (u : User)
    (hvf : topts.verifyToken = some vf)
    (hhdr : req.headers topts.tokenHeader = some hv)
    (hext : Tok.extractToken topts.tokenPre hv = some tok)
    (hver : vf tok = some u) :
    Tok.handleRequest topts opts uuids now store₀ req actions idx₀ =
      Tok.Outcome.stateless u store₀ := by
  simp [Tok.handleRequest, hvf, hhdr, hext, hver]

/-- A concrete verify-token callback accepting `"valid-secret-token"`, used
by the C3 witness. -/
def demoVerify : String → Option String :=
  fun t => if t = "valid-secret-token" then some "api-user-1" else none

/-- Concrete stateless-token options with the default header and prefix,
used by the C3 witness. -/
def demoTokOptions : Tok.Options String := { verifyToken := some demoVerify }

/-- A concrete request carrying `Authorization: Bearer valid-secret-token`,
used by the C3 witness. -/
def demoTokReq : V2.Req :=
  { cookie := none,
    headers := fun h =>
      if h = "Authorization" then some "Bearer valid-secret-token" else none,
    remoteAddr := "1.2.3.4" }

/-- Witness for C3 at concrete inputs. -/
theorem c3_stateless_token_bypasses_persistence_witness :
    demoTokOptions.verifyToken = some demoVerify ∧
    demoTokReq.headers demoTokOptions.tokenHeader =
      some "Bearer valid-secret-token" ∧
    Tok.extractToken demoTokOptions.tokenPre "Bearer valid-secret-token" =
      some "valid-secret-token" ∧
    demoVerify "valid-secret-token" = some "api-user-1" ∧
    Tok.handleRequest demoTokOptions {} demoUuids 9
      (fun _ => none) demoTokReq ([] : List (Action String)) 0 =
      Tok.Outcome.stateless "api-user-1" (fun _ => none) :=
  ⟨rfl, rfl, by decide, by decide,
   c3_stateless_token_bypasses_persistence demoTokOptions {} demoUuids 9
     (fun _ => none) demoTokReq [] 0 demoVerify
     "Bearer valid-secret-token" "valid-secret-token" "api-user-1"
     rfl rfl (by decide) (by decide)⟩

end FreshSession
